import Mathlib

/-!
Verification of the polyglot TTS client (src/main.py): a shallow embedding
of the job-lifecycle core (submission, adaptive polling with timeout, and
result retrieval) together with theorems settling the spec claims.

The network and the clock are modelled as explicit inputs: a poll run is
driven by a trace of (elapsed-time, response) pairs, one per loop
iteration, where the elapsed time is the value of time.time() - start_time
observed at the top of that iteration and the response is what the GET to
the status endpoint would return if issued on that iteration.
-/

/-- Fixed polling ceiling, MAX_WAIT_SECONDS = 5400 in src/main.py. -/
def MAX_WAIT_SECONDS : Nat := 5400

/-- Embedding of the Python substring test (needle in haystack):
true iff needle occurs as a contiguous substring of haystack. -/
def strContains (haystack needle : String) : Bool :=
  (List.range (haystack.data.length + 1)).any
    (fun i => decide ((haystack.data.drop i).take needle.data.length = needle.data))

/-- A parsed JSON object, modelled as an association list of string fields
(only string-valued fields matter to the client code). -/
structure JsonBody where
  fields : List (String × String)
deriving DecidableEq, Repr

/-- Embedding of Python dict.get: the value of the first binding of the
key, or none when the key is absent (Python None). -/
def JsonBody.get (b : JsonBody) (k : String) : Option String :=
  (b.fields.find? (fun p => p.1 == k)).map (fun p => p.2)

/-- Outcome of one GET to the status endpoint, as seen by the client:
either a RequestException (network error, timeout, or a non-2xx status
surfaced by raise_for_status), or a 2xx reply with a parsed JSON body. -/
inductive PollResponse where
  | transportError (msg : String)
  | ok (body : JsonBody)
deriving DecidableEq, Repr

/-- Progress events pushed to the Streamlit status placeholder by
poll_for_completion. -/
inductive ProgressEvent where
  | intervalNotice (interval : Nat)
  | info (elapsed : Nat) (interval : Nat)
  | success (elapsed : Nat)
  | warning (msg : String) (interval : Nat) (elapsed : Nat)
deriving DecidableEq, Repr

/-- Terminal result of the polling loop. timedOut carries the job id and
the number of seconds named in the raised message: the code formats
MAX_WAIT_SECONDS itself, not the measured elapsed time. exhausted means
the supplied trace ended while the loop would have kept polling. -/
inductive PollOutcome where
  | complete (elapsed : Nat)
  | timedOut (jobId : String) (reportedSeconds : Nat)
  | unknownStatus (raw : Option String) (body : JsonBody)
  | exhausted
deriving DecidableEq, Repr

/-- Everything observable about one run of the polling loop: the progress
events emitted in order, the terminal outcome, the number of GET requests
issued to the status endpoint, and the argument of each time.sleep call. -/
structure PollRun where
  events : List ProgressEvent
  outcome : PollOutcome
  requests : Nat
  sleeps : List Nat
deriving DecidableEq, Repr

/-- Interval selection from the head of poll_for_completion (lines 50-62):
dynamic_poll_interval starts at 15 and is reassigned on every branch. -/
def computeInterval (language : String) (text_length : Nat) : Nat :=
  let dynamic_poll_interval := 15
  let dynamic_poll_interval :=
    if strContains language "English" then
      if text_length < 500 then 10 else 30
    else
      if text_length < 100 then 20
      else if text_length < 500 then 30
      else 45
  dynamic_poll_interval

/-- The while-loop of poll_for_completion (lines 69-95), one trace entry
per iteration. Each iteration first compares the observed elapsed time
with MAX_WAIT_SECONDS and raises the timeout before any GET; otherwise it
issues one GET. A RequestException emits a warning and retries after
sleeping; a 2xx reply dispatches on the status field: complete ends the
loop with a success event, processing emits an info event and retries
after sleeping, anything else raises the unknown-status error. -/
def pollLoop (jobId : String) (interval : Nat) :
    List (Nat × PollResponse) → PollRun
  | [] => ⟨[], .exhausted, 0, []⟩
  | (elapsed_time, resp) :: rest =>
    if elapsed_time > MAX_WAIT_SECONDS then
      ⟨[], .timedOut jobId MAX_WAIT_SECONDS, 0, []⟩
    else
      match resp with
      | .transportError e =>
        let r := pollLoop jobId interval rest
        ⟨.warning e interval elapsed_time :: r.events, r.outcome,
          r.requests + 1, interval :: r.sleeps⟩
      | .ok body =>
        let current_status := body.get "status"
        if current_status = some "complete" then
          ⟨[.success elapsed_time], .complete elapsed_time, 1, []⟩
        else if current_status = some "processing" then
          let r := pollLoop jobId interval rest
          ⟨.info elapsed_time interval :: r.events, r.outcome,
            r.requests + 1, interval :: r.sleeps⟩
        else
          ⟨[], .unknownStatus current_status body, 1, []⟩

/-- poll_for_completion (lines 43-95): computes the interval once, emits
the initial notice event, then runs the loop. -/
def poll_for_completion (jobId language : String) (text_length : Nat)
    (trace : List (Nat × PollResponse)) : PollRun :=
  let dynamic_poll_interval := computeInterval language text_length
  let r := pollLoop jobId dynamic_poll_interval trace
  ⟨.intervalNotice dynamic_poll_interval :: r.events, r.outcome,
    r.requests, r.sleeps⟩

/-- Result of submit_job: either the (job_id, status_url) pair or the
raised exception's message. -/
inductive SubmitResult where
  | handle (job_id status_url : String)
  | submissionError (msg : String)
deriving DecidableEq, Repr

/-- Python truthiness of a dict.get result: None and the empty string are
falsy, every other string is truthy. -/
def truthy : Option String → Bool
  | none => false
  | some s => !(s == "")

/-- submit_job (lines 15-41): one POST to the submission endpoint. A
RequestException becomes the submission error; on a 2xx reply the body is
parsed and the pair is returned only when both job_id and status_url are
truthy, otherwise the missing-field exception is raised. -/
def submit_job (gender text : String) (resp : PollResponse) : SubmitResult :=
  match gender, text, resp with
  | _, _, .transportError e =>
    .submissionError ("Error submitting job: " ++ e)
  | _, _, .ok job_data =>
    let job_id := job_data.get "job_id"
    let status_url := job_data.get "status_url"
    if truthy job_id && truthy status_url then
      .handle (job_id.getD "") (status_url.getD "")
    else
      .submissionError "API response did not contain job_id or status_url."

/-- Behaviour of the local filesystem while download_result writes the
artifact: either every chunked write succeeds, or some write raises an
IOError carrying a message. -/
inductive WriteBehavior where
  | writeOk
  | ioError (msg : String)
deriving DecidableEq, Repr

/-- Outcome of the streamed GET to the result endpoint, as seen by the
client: a RequestException, or a 2xx reply whose body arrives as a list
of byte chunks (iter_content). -/
inductive DownloadResponse where
  | transportError (msg : String)
  | ok (chunks : List (List Nat)) (w : WriteBehavior)
deriving DecidableEq, Repr

/-- Result of download_result: the returned artifact path with the size
of the file on disk, the empty-file exception, or a wrapped transport or
disk error. -/
inductive DownloadResult where
  | artifact (path : String) (byteSize : Nat)
  | emptyArtifact
  | downloadError (msg : String)
deriving DecidableEq, Repr

/-- Total number of bytes the chunked writes put on disk. -/
def chunkBytes (chunks : List (List Nat)) : Nat :=
  (chunks.map List.length).sum

/-- download_result (lines 97-122): a RequestException or an IOError
while writing is wrapped into the corresponding error message; after a
successful write the file size is checked, zero bytes raises the
empty-file exception, otherwise the path job_id.wav is returned. -/
def download_result (job_id : String) (resp : DownloadResponse) :
    DownloadResult :=
  match resp with
  | .transportError e =>
    .downloadError ("Error downloading file: " ++ e)
  | .ok _ (.ioError e) =>
    .downloadError ("Error writing file to disk: " ++ e)
  | .ok chunks .writeOk =>
    if chunkBytes chunks = 0 then
      .emptyArtifact
    else
      .artifact (job_id ++ ".wav") (chunkBytes chunks)

/-- Spec table of section 4.2, written from the spec words alone, to be
compared with computeInterval: English labels use 10s below length 500
and 30s from 500 on; all other labels use 20s below 100, 30s from 100 to
499, and 45s from 500 on. -/
def specInterval (englishLabel : Bool) (len : Nat) : Nat :=
  if englishLabel then
    if len < 500 then 10 else 30
  else
    if len < 100 then 20
    else if len < 500 then 30
    else 45

/-- A 2xx status body reporting processing. -/
def processingBody : JsonBody := ⟨[("status", "processing")]⟩

/-- A 2xx status body reporting complete. -/
def completeBody : JsonBody := ⟨[("status", "complete")]⟩

/-- Recognizer for warning events, used to count warnings in a run. -/
def ProgressEvent.isWarning : ProgressEvent → Bool
  | .warning _ _ _ => true
  | _ => false

/-- The polling interval a progress event reports to the UI, when it
reports one: the initial notice, each processing line, and each retry
warning all name the interval; the success line does not. -/
def ProgressEvent.reportedInterval : ProgressEvent → Option Nat
  | .intervalNotice i => some i
  | .info _ i => some i
  | .warning _ i _ => some i
  | .success _ => none

/-! Equation lemmas for the polling loop, one per branch of the loop body. -/

theorem pollLoop_nil (jobId : String) (interval : Nat) :
    pollLoop jobId interval [] = ⟨[], .exhausted, 0, []⟩ := rfl

theorem pollLoop_cons_timeout (jobId : String) (interval elapsed : Nat)
    (resp : PollResponse) (rest : List (Nat × PollResponse))
    (h : elapsed > MAX_WAIT_SECONDS) :
    pollLoop jobId interval ((elapsed, resp) :: rest) =
      ⟨[], .timedOut jobId MAX_WAIT_SECONDS, 0, []⟩ := by
  simp [pollLoop, h]

theorem pollLoop_cons_transport (jobId : String) (interval elapsed : Nat)
    (msg : String) (rest : List (Nat × PollResponse))
    (h : ¬ elapsed > MAX_WAIT_SECONDS) :
    pollLoop jobId interval ((elapsed, .transportError msg) :: rest) =
      ⟨.warning msg interval elapsed :: (pollLoop jobId interval rest).events,
        (pollLoop jobId interval rest).outcome,
        (pollLoop jobId interval rest).requests + 1,
        interval :: (pollLoop jobId interval rest).sleeps⟩ := by
  simp [pollLoop, h]

theorem pollLoop_cons_complete (jobId : String) (interval elapsed : Nat)
    (body : JsonBody) (rest : List (Nat × PollResponse))
    (h : ¬ elapsed > MAX_WAIT_SECONDS)
    (hc : body.get "status" = some "complete") :
    pollLoop jobId interval ((elapsed, .ok body) :: rest) =
      ⟨[.success elapsed], .complete elapsed, 1, []⟩ := by
  simp [pollLoop, h, hc]

theorem pollLoop_cons_processing (jobId : String) (interval elapsed : Nat)
    (body : JsonBody) (rest : List (Nat × PollResponse))
    (h : ¬ elapsed > MAX_WAIT_SECONDS)
    (hp : body.get "status" = some "processing") :
    pollLoop jobId interval ((elapsed, .ok body) :: rest) =
      ⟨.info elapsed interval :: (pollLoop jobId interval rest).events,
        (pollLoop jobId interval rest).outcome,
        (pollLoop jobId interval rest).requests + 1,
        interval :: (pollLoop jobId interval rest).sleeps⟩ := by
  simp [pollLoop, h, hp]

theorem pollLoop_cons_unknown (jobId : String) (interval elapsed : Nat)
    (body : JsonBody) (rest : List (Nat × PollResponse))
    (h : ¬ elapsed > MAX_WAIT_SECONDS)
    (hc : body.get "status" ≠ some "complete")
    (hp : body.get "status" ≠ some "processing") :
    pollLoop jobId interval ((elapsed, .ok body) :: rest) =
      ⟨[], .unknownStatus (body.get "status") body, 1, []⟩ := by
  simp [pollLoop, h, hc, hp]

/-- Every time.sleep in a run of the loop sleeps for exactly the interval
the loop was given. -/
theorem pollLoop_sleeps_all (jobId : String) (interval : Nat)
    (trace : List (Nat × PollResponse)) :
    ∀ s ∈ (pollLoop jobId interval trace).sleeps, s = interval := by
  induction trace with
  | nil => intro s hs; simp [pollLoop_nil] at hs
  | cons head rest ih =>
    obtain ⟨elapsed, resp⟩ := head
    by_cases h : elapsed > MAX_WAIT_SECONDS
    · rw [pollLoop_cons_timeout jobId interval elapsed resp rest h]
      intro s hs; simp at hs
    · cases resp with
      | transportError e =>
        rw [pollLoop_cons_transport jobId interval elapsed e rest h]
        intro s hs
        rcases List.mem_cons.mp hs with rfl | hs
        · rfl
        · exact ih s hs
      | ok body =>
        by_cases hc : body.get "status" = some "complete"
        · rw [pollLoop_cons_complete jobId interval elapsed body rest h hc]
          intro s hs; simp at hs
        · by_cases hp : body.get "status" = some "processing"
          · rw [pollLoop_cons_processing jobId interval elapsed body rest h hp]
            intro s hs
            rcases List.mem_cons.mp hs with rfl | hs
            · rfl
            · exact ih s hs
          · rw [pollLoop_cons_unknown jobId interval elapsed body rest h hc hp]
            intro s hs; simp at hs

/-- Every progress event of a loop run that reports an interval reports
exactly the interval the loop was given. -/
theorem pollLoop_events_interval (jobId : String) (interval : Nat)
    (trace : List (Nat × PollResponse)) :
    ∀ ev ∈ (pollLoop jobId interval trace).events,
      ev.reportedInterval = none ∨ ev.reportedInterval = some interval := by
  induction trace with
  | nil => intro ev hev; simp [pollLoop_nil] at hev
  | cons head rest ih =>
    obtain ⟨elapsed, resp⟩ := head
    by_cases h : elapsed > MAX_WAIT_SECONDS
    · rw [pollLoop_cons_timeout jobId interval elapsed resp rest h]
      intro ev hev; simp at hev
    · cases resp with
      | transportError e =>
        rw [pollLoop_cons_transport jobId interval elapsed e rest h]
        intro ev hev
        rcases List.mem_cons.mp hev with rfl | hev
        · exact Or.inr rfl
        · exact ih ev hev
      | ok body =>
        by_cases hc : body.get "status" = some "complete"
        · rw [pollLoop_cons_complete jobId interval elapsed body rest h hc]
          intro ev hev
          rcases List.mem_cons.mp hev with rfl | hev
          · exact Or.inl rfl
          · simp at hev
        · by_cases hp : body.get "status" = some "processing"
          · rw [pollLoop_cons_processing jobId interval elapsed body rest h hp]
            intro ev hev
            rcases List.mem_cons.mp hev with rfl | hev
            · exact Or.inr rfl
            · exact ih ev hev
          · rw [pollLoop_cons_unknown jobId interval elapsed body rest h hc hp]
            intro ev hev; simp at hev

/-- C1: the poll-interval computation is a pure deterministic function of
the language label and the text length that matches the spec table of
section 4.2 at every input, boundaries included: English labels give 10
below length 500 and 30 from 500 on (so 499 and 500 select different
intervals), other labels give 20 below 100, 30 from 100 to 499, and 45
from 500 on. -/
theorem computeInterval_matches_spec_table :
    (∀ (language : String) (len : Nat),
      computeInterval language len =
        specInterval (strContains language "English") len) ∧
    computeInterval "English (en)" 499 = 10 ∧
    computeInterval "English (en)" 500 = 30 := by
  refine ⟨fun language len => ?_, by decide, by decide⟩
  unfold computeInterval specInterval
  cases h : strContains language "English" <;> simp [h]

/-- C8: the English branch of the interval policy is selected exactly
when the label contains the substring English: every label containing it
uses the 10s/30s table, and every label not containing it (such as
Other) uses the 20s/30s/45s table. -/
theorem english_branch_iff_contains (language : String) (len : Nat) :
    (strContains language "English" = true →
      computeInterval language len = (if len < 500 then 10 else 30)) ∧
    (strContains language "English" = false →
      computeInterval language len =
        (if len < 100 then 20 else if len < 500 then 30 else 45)) := by
  constructor <;> intro h <;> simp [computeInterval, h]

theorem english_branch_iff_contains_witness :
    strContains "Telugu English mix" "English" = true ∧
    computeInterval "Telugu English mix" 600 = 30 ∧
    strContains "Other" "English" = false ∧
    computeInterval "Other" 50 = 20 :=
  ⟨by decide,
   by simpa using (english_branch_iff_contains "Telugu English mix" 600).1 (by decide),
   by decide,
   by simpa using (english_branch_iff_contains "Other" 50).2 (by decide)⟩

/-- C9: for every language label and text length the interval the loop
actually uses lies in the set 10, 20, 30, 45; the initial default of 15
is overwritten on every branch, every time.sleep of the run sleeps for
the computed interval, never 15, and every progress event of the run
that reports an interval (the initial notice, the processing lines, the
retry warnings) reports the computed interval, never 15. -/
theorem poll_interval_policy_set (language : String) (len : Nat)
    (jobId : String) (trace : List (Nat × PollResponse)) :
    (computeInterval language len = 10 ∨ computeInterval language len = 20 ∨
      computeInterval language len = 30 ∨ computeInterval language len = 45) ∧
    computeInterval language len ≠ 15 ∧
    (∀ s ∈ (poll_for_completion jobId language len trace).sleeps,
      s = computeInterval language len ∧ s ≠ 15) ∧
    (∀ ev ∈ (poll_for_completion jobId language len trace).events,
      (ev.reportedInterval = none ∨
        ev.reportedInterval = some (computeInterval language len)) ∧
      ev.reportedInterval ≠ some 15) := by
  have hset : computeInterval language len = 10 ∨ computeInterval language len = 20 ∨
      computeInterval language len = 30 ∨ computeInterval language len = 45 := by
    unfold computeInterval
    split_ifs <;> simp
  have hne : computeInterval language len ≠ 15 := by
    rcases hset with h | h | h | h <;> rw [h] <;> decide
  refine ⟨hset, hne, fun s hs => ?_, fun ev hev => ?_⟩
  · have hs' : s ∈ (pollLoop jobId (computeInterval language len) trace).sleeps := hs
    have := pollLoop_sleeps_all jobId (computeInterval language len) trace s hs'
    exact ⟨this, this ▸ hne⟩
  · have hev' : ev ∈ ProgressEvent.intervalNotice (computeInterval language len) ::
        (pollLoop jobId (computeInterval language len) trace).events := hev
    have hd : ev.reportedInterval = none ∨
        ev.reportedInterval = some (computeInterval language len) := by
      rcases List.mem_cons.mp hev' with rfl | hev''
      · exact Or.inr rfl
      · exact pollLoop_events_interval jobId (computeInterval language len) trace ev hev''
    refine ⟨hd, ?_⟩
    rcases hd with hnone | hsome
    · rw [hnone]; intro hcontra; exact Option.noConfusion hcontra
    · rw [hsome]
      intro hcontra
      exact hne (Option.some.inj hcontra)

theorem poll_interval_policy_set_witness :
    (computeInterval "Hindi (hi)" 50 = 10 ∨ computeInterval "Hindi (hi)" 50 = 20 ∨
      computeInterval "Hindi (hi)" 50 = 30 ∨ computeInterval "Hindi (hi)" 50 = 45) ∧
    (20 = computeInterval "Hindi (hi)" 50 ∧ (20 : Nat) ≠ 15) ∧
    (((ProgressEvent.info 0 20).reportedInterval = none ∨
        (ProgressEvent.info 0 20).reportedInterval =
          some (computeInterval "Hindi (hi)" 50)) ∧
      (ProgressEvent.info 0 20).reportedInterval ≠ some 15) :=
  ⟨(poll_interval_policy_set "Hindi (hi)" 50 "j" [(0, .ok processingBody)]).1,
   (poll_interval_policy_set "Hindi (hi)" 50 "j" [(0, .ok processingBody)]).2.2.1
      20 (by decide),
   (poll_interval_policy_set "Hindi (hi)" 50 "j" [(0, .ok processingBody)]).2.2.2
      (ProgressEvent.info 0 20) (by decide)⟩

/-- C2 counterexample: with an observed elapsed time of 5401 seconds the
loop raises the timeout at once, but the error carries 5400 (the constant
MAX_WAIT_SECONDS formatted into the message), which is not the elapsed
time 5401, refuting the carrying-the-elapsed-time part of the claim. -/
theorem pollLoop_timeout_reports_ceiling :
    pollLoop "job-1" 10 [(5401, .ok completeBody)] =
      ⟨[], .timedOut "job-1" 5400, 0, []⟩ ∧ (5400 : Nat) ≠ 5401 := by
  exact ⟨by decide, by decide⟩

/-- C2 (amended): on every iteration the observed elapsed time is
compared against MAX_WAIT_SECONDS before any network call; whenever it
exceeds the ceiling the loop fails immediately with the timeout error
carrying the job id and the fixed ceiling MAX_WAIT_SECONDS, issuing no
status request at all on that or any later iteration, whatever the
pending response would have been. -/
theorem pollLoop_timeout_checked_before_request (jobId : String)
    (interval elapsed : Nat) (resp : PollResponse)
    (rest : List (Nat × PollResponse))
    (h : elapsed > MAX_WAIT_SECONDS) :
    pollLoop jobId interval ((elapsed, resp) :: rest) =
      ⟨[], .timedOut jobId MAX_WAIT_SECONDS, 0, []⟩ :=
  pollLoop_cons_timeout jobId interval elapsed resp rest h

theorem pollLoop_timeout_checked_before_request_witness :
    pollLoop "j" 10 [(5500, .ok completeBody)] =
      ⟨[], .timedOut "j" MAX_WAIT_SECONDS, 0, []⟩ :=
  pollLoop_timeout_checked_before_request "j" 10 5500 (.ok completeBody) []
    (by decide)

/-- C3: a 2xx status reply whose status field is neither processing nor
complete makes the loop fail immediately with the unknown-status error
carrying the raw value and the full response body, after exactly one
request and with no further polls, whatever the rest of the trace holds. -/
theorem pollLoop_unknown_status_terminal (jobId : String)
    (interval elapsed : Nat) (body : JsonBody)
    (rest : List (Nat × PollResponse))
    (h : ¬ elapsed > MAX_WAIT_SECONDS)
    (hc : body.get "status" ≠ some "complete")
    (hp : body.get "status" ≠ some "processing") :
    pollLoop jobId interval ((elapsed, .ok body) :: rest) =
      ⟨[], .unknownStatus (body.get "status") body, 1, []⟩ :=
  pollLoop_cons_unknown jobId interval elapsed body rest h hc hp

theorem pollLoop_unknown_status_terminal_witness :
    pollLoop "j" 10
        [(0, .ok ⟨[("status", "pending-review")]⟩), (1, .ok completeBody)] =
      ⟨[], .unknownStatus (some "pending-review")
        ⟨[("status", "pending-review")]⟩, 1, []⟩ := by
  simpa using pollLoop_unknown_status_terminal "j" 10 0
    ⟨[("status", "pending-review")]⟩ [(1, .ok completeBody)]
    (by decide) (by decide) (by decide)

/-- C10: a 2xx status reply whose JSON body has no status field at all is
routed to the unknown-status branch: dict.get yields None, which is
neither processing nor complete, so the loop fails terminally with the
unknown-status error carrying the absent value (none) and the full body,
rather than retrying. -/
theorem pollLoop_missing_status_unknown (jobId : String)
    (interval elapsed : Nat) (body : JsonBody)
    (rest : List (Nat × PollResponse))
    (h : ¬ elapsed > MAX_WAIT_SECONDS)
    (hs : body.get "status" = none) :
    pollLoop jobId interval ((elapsed, .ok body) :: rest) =
      ⟨[], .unknownStatus none body, 1, []⟩ := by
  have := pollLoop_cons_unknown jobId interval elapsed body rest h
    (by simp [hs]) (by simp [hs])
  rwa [hs] at this

theorem pollLoop_missing_status_unknown_witness :
    pollLoop "j" 10 [(0, .ok ⟨[("progress", "97")]⟩), (1, .ok completeBody)] =
      ⟨[], .unknownStatus none ⟨[("progress", "97")]⟩, 1, []⟩ :=
  pollLoop_missing_status_unknown "j" 10 0 ⟨[("progress", "97")]⟩
    [(1, .ok completeBody)] (by decide) (by decide)

/-- C4: a transport failure below the ceiling never ends the loop: the
run's outcome is exactly the outcome of the remaining trace, one warning
event is added for the failure, followed by one sleep for the policy
interval; in particular one transport failure followed by a complete
status yields exactly one warning and a successful completion after two
requests. -/
theorem pollLoop_transport_failure_retries (jobId : String)
    (interval e1 e2 : Nat) (msg : String)
    (rest : List (Nat × PollResponse))
    (h1 : ¬ e1 > MAX_WAIT_SECONDS) (h2 : ¬ e2 > MAX_WAIT_SECONDS) :
    ((pollLoop jobId interval ((e1, .transportError msg) :: rest)).outcome =
        (pollLoop jobId interval rest).outcome ∧
      (pollLoop jobId interval ((e1, .transportError msg) :: rest)).events =
        .warning msg interval e1 :: (pollLoop jobId interval rest).events ∧
      (pollLoop jobId interval ((e1, .transportError msg) :: rest)).sleeps =
        interval :: (pollLoop jobId interval rest).sleeps) ∧
    (pollLoop jobId interval [(e1, .transportError msg), (e2, .ok completeBody)] =
        ⟨[.warning msg interval e1, .success e2], .complete e2, 2, [interval]⟩ ∧
      (pollLoop jobId interval
          [(e1, .transportError msg), (e2, .ok completeBody)]).events.countP
        ProgressEvent.isWarning = 1) := by
  have hnext := pollLoop_cons_transport jobId interval e1 msg rest h1
  have hcomp : completeBody.get "status" = some "complete" := by decide
  have hfin := pollLoop_cons_complete jobId interval e2 completeBody [] h2 hcomp
  have hconcrete := pollLoop_cons_transport jobId interval e1 msg
    [(e2, .ok completeBody)] h1
  rw [hfin] at hconcrete
  refine ⟨⟨by rw [hnext], by rw [hnext], by rw [hnext]⟩, ?_, ?_⟩
  · rw [hconcrete]
  · rw [hconcrete]
    simp [ProgressEvent.isWarning]

theorem pollLoop_transport_failure_retries_witness :
    pollLoop "j" 30 [(0, .transportError "boom"), (30, .ok completeBody)] =
      ⟨[.warning "boom" 30 0, .success 30], .complete 30, 2, [30]⟩ ∧
    (pollLoop "j" 30
        [(0, .transportError "boom"), (30, .ok completeBody)]).events.countP
      ProgressEvent.isWarning = 1 :=
  (pollLoop_transport_failure_retries "j" 30 0 30 "boom" []
    (by decide) (by decide)).2

/-- C5: for every polling interval, a trace of two processing replies and
then a complete reply, each observed below the ceiling, makes the loop
issue exactly 3 requests and finish successfully, the final success event
carrying the total elapsed time of the completing iteration. -/
theorem pollLoop_three_polls_complete (jobId : String) (interval : Nat)
    (e1 e2 e3 : Nat) (b1 b2 b3 : JsonBody)
    (h1 : ¬ e1 > MAX_WAIT_SECONDS) (h2 : ¬ e2 > MAX_WAIT_SECONDS)
    (h3 : ¬ e3 > MAX_WAIT_SECONDS)
    (s1 : b1.get "status" = some "processing")
    (s2 : b2.get "status" = some "processing")
    (s3 : b3.get "status" = some "complete") :
    pollLoop jobId interval [(e1, .ok b1), (e2, .ok b2), (e3, .ok b3)] =
      ⟨[.info e1 interval, .info e2 interval, .success e3],
        .complete e3, 3, [interval, interval]⟩ := by
  have t3 := pollLoop_cons_complete jobId interval e3 b3 [] h3 s3
  have t2 := pollLoop_cons_processing jobId interval e2 b2 [(e3, .ok b3)] h2 s2
  rw [t3] at t2
  have t1 := pollLoop_cons_processing jobId interval e1 b1
    [(e2, .ok b2), (e3, .ok b3)] h1 s1
  rw [t2] at t1
  rw [t1]

theorem pollLoop_three_polls_complete_witness :
    pollLoop "j" 45 [(0, .ok processingBody), (45, .ok processingBody),
        (90, .ok completeBody)] =
      ⟨[.info 0 45, .info 45 45, .success 90], .complete 90, 3, [45, 45]⟩ :=
  pollLoop_three_polls_complete "j" 45 0 45 90 processingBody processingBody
    completeBody (by decide) (by decide) (by decide) (by decide) (by decide)
    (by decide)

/-- C6 counterexample: a 2xx submission reply whose body contains both
fields, with job_id bound to the empty string, still raises the
missing-field error because Python truthiness treats the empty string as
missing, refuting the claim that presence of both fields suffices for
the pair to be returned. -/
theorem submit_job_present_empty_field_rejected :
    (⟨[("job_id", ""), ("status_url", "/status/1")]⟩ : JsonBody).get "job_id" =
      some "" ∧
    (⟨[("job_id", ""), ("status_url", "/status/1")]⟩ : JsonBody).get
      "status_url" = some "/status/1" ∧
    submit_job "female" "hello"
        (.ok ⟨[("job_id", ""), ("status_url", "/status/1")]⟩) =
      .submissionError "API response did not contain job_id or status_url." :=
  ⟨by decide, by decide, by decide⟩

/-- C6 (amended): submit issues exactly one request and never retries; it
returns the pair (job id, status locator) if and only if the transport
call succeeds with a 2xx response and the parsed JSON body binds both the
job identifier and the status locator to non-empty strings (a field that
is absent or bound to a falsy value counts as missing); in every other
case it fails with the submission error, which surfaces immediately. -/
theorem submit_job_handle_iff (gender text : String) (resp : PollResponse)
    (jid surl : String) :
    (submit_job gender text resp = .handle jid surl ↔
      ∃ body, resp = .ok body ∧ body.get "job_id" = some jid ∧ jid ≠ "" ∧
        body.get "status_url" = some surl ∧ surl ≠ "") ∧
    ((∀ j s, submit_job gender text resp ≠ .handle j s) →
      ∃ m, submit_job gender text resp = .submissionError m) := by
  constructor
  · cases resp with
    | transportError e =>
      constructor
      · intro h; exact absurd h (by simp [submit_job])
      · rintro ⟨body, hb, -⟩; exact absurd hb (by simp)
    | ok body =>
      have hsub : submit_job gender text (.ok body) =
          (if truthy (body.get "job_id") && truthy (body.get "status_url") then
            SubmitResult.handle ((body.get "job_id").getD "")
              ((body.get "status_url").getD "")
          else
            .submissionError
              "API response did not contain job_id or status_url.") := rfl
      constructor
      · intro h
        rw [hsub] at h
        split at h
        · rename_i hcond
          rw [Bool.and_eq_true] at hcond
          obtain ⟨hjt, hst⟩ := hcond
          cases hj : body.get "job_id" with
          | none => rw [hj] at hjt; exact absurd hjt (by simp [truthy])
          | some j =>
            cases hs : body.get "status_url" with
            | none => rw [hs] at hst; exact absurd hst (by simp [truthy])
            | some s =>
              rw [hj, hs] at h
              simp only [Option.getD_some] at h
              injection h with h1 h2
              subst h1; subst h2
              rw [hj] at hjt; rw [hs] at hst
              simp only [truthy, Bool.not_eq_eq_eq_not, Bool.not_true,
                beq_eq_false_iff_ne, ne_eq] at hjt hst
              exact ⟨body, rfl, hj, hjt, hs, hst⟩
        · exact absurd h (by simp)
      · rintro ⟨body', hb, hj, hjne, hs, hsne⟩
        injection hb with hb'
        subst hb'
        rw [hsub, hj, hs]
        have hjt : truthy (some jid) = true := by
          simp [truthy, hjne]
        have hst : truthy (some surl) = true := by
          simp [truthy, hsne]
        rw [hjt, hst]
        simp
  · intro hne
    cases resp with
    | transportError e => exact ⟨_, rfl⟩
    | ok body =>
      by_cases hcond : truthy (body.get "job_id") && truthy (body.get "status_url")
      · have hh : submit_job gender text (.ok body) =
            .handle ((body.get "job_id").getD "")
              ((body.get "status_url").getD "") := by
          simp [submit_job, hcond]
        exact absurd hh (hne _ _)
      · refine ⟨"API response did not contain job_id or status_url.", ?_⟩
        simp [submit_job, hcond]

theorem submit_job_handle_iff_witness :
    submit_job "female" "hello"
        (.ok ⟨[("job_id", "j1"), ("status_url", "/s")]⟩) =
      .handle "j1" "/s" ∧
    (∃ m, submit_job "female" "hello" (.transportError "down") =
      .submissionError m) :=
  ⟨(submit_job_handle_iff "female" "hello"
        (.ok ⟨[("job_id", "j1"), ("status_url", "/s")]⟩) "j1" "/s").1.mpr
      ⟨⟨[("job_id", "j1"), ("status_url", "/s")]⟩, rfl, by decide, by decide,
        by decide, by decide⟩,
   (submit_job_handle_iff "female" "hello" (.transportError "down")
        "j1" "/s").2 (fun j s => by simp [submit_job])⟩

/-- C7: after a 2xx result download whose writes all succeed, the file
size on disk decides the outcome: zero bytes fail with the empty-file
error, a non-zero size returns the artifact named job_id.wav whose
recorded byte size is exactly the number of bytes written (the length of
the concatenation of all chunks); a transport failure or an IOError
while writing instead fails with the wrapped download error. -/
theorem download_result_spec (job_id : String) (chunks : List (List Nat))
    (m : String) :
    (chunkBytes chunks = 0 →
      download_result job_id (.ok chunks .writeOk) = .emptyArtifact) ∧
    (chunkBytes chunks ≠ 0 →
      download_result job_id (.ok chunks .writeOk) =
        .artifact (job_id ++ ".wav") (chunkBytes chunks)) ∧
    chunkBytes chunks = chunks.flatten.length ∧
    download_result job_id (.transportError m) =
      .downloadError ("Error downloading file: " ++ m) ∧
    download_result job_id (.ok chunks (.ioError m)) =
      .downloadError ("Error writing file to disk: " ++ m) := by
  refine ⟨fun h => ?_, fun h => ?_, ?_, rfl, rfl⟩
  · simp [download_result, h]
  · simp [download_result, h]
  · rw [chunkBytes, List.length_flatten]

theorem download_result_spec_witness :
    download_result "j7" (.ok [[104, 105, 33], [10]] .writeOk) =
      .artifact "j7.wav" 4 ∧
    download_result "j7" (.ok [] .writeOk) = .emptyArtifact :=
  ⟨by simpa using
      (download_result_spec "j7" [[104, 105, 33], [10]] "m").2.1 (by decide),
   (download_result_spec "j7" [] "m").1 (by decide)⟩
